import Mathlib

/-!
Shallow embedding of the icsql-py PTY broker scripts.

The repository contains two single-threaded PTY brokers:
* `pyrepl.py` (FIFO variant): bridges a named pipe and local stdin into a
  PTY master and relays PTY output to local stdout.
* `repl_pty_proxy.py` (socket variant): accepts Unix-domain-socket clients
  whose bytes are relayed into the PTY master, and relays PTY output to
  local stdout.

Pure decision logic (error dispatch, retry policy, teardown effects,
selector bookkeeping) is translated here as executable Lean functions.
System calls (`os.read`, `os.open`, `fcntl.ioctl`) are modelled by passing
their outcome explicitly as an argument (`Except`/`Option`/lists of
outcomes), so that "the call raised error e" and "the call returned data"
are both first-class values the translated control flow can branch on,
exactly as the Python `try`/`except` blocks do.
-/

namespace Icsql

/-- POSIX error kinds distinguished by the scripts (`errno.EIO`,
`errno.ENXIO`, `errno.ENOENT`), plus representatives of every other
error number. -/
inductive Errno where
  | eio
  | enxio
  | enoent
  | ebadf
  | other (n : Nat)
deriving DecidableEq

/-- File-status flags of a descriptor as manipulated through
`fcntl F_GETFL` / `F_SETFL`. The scripts only ever touch the
`O_NONBLOCK` bit, so the flag word is modelled as that bit plus the
remaining bits, which `flags | O_NONBLOCK` and `flags & ~O_NONBLOCK`
leave unchanged. -/
structure StatusFlags where
  nonblock : Bool
  rest : Nat
deriving DecidableEq

/-- Translation of `pyrepl.set_nonblocking(fd, enable=True)` (pyrepl.py
lines 48-52). The source reads `flags = fcntl(fd, F_GETFL)` and then,
inside the single `if enable:` branch, performs two F_SETFL calls in
sequence: first `flags | O_NONBLOCK`, then `flags & ~O_NONBLOCK` (there
is no `else` branch). The returned value is the descriptor's final flag
word, i.e. the value of the last F_SETFL. -/
def set_nonblocking (fdFlags : StatusFlags) (enable : Bool) : StatusFlags :=
  let flags := fdFlags
  if enable then
    let _afterFirstSetfl := { flags with nonblock := true }
    { flags with nonblock := false }
  else
    fdFlags

/-- Translation of `repl_pty_proxy.set_nonblock(fd)` (repl_pty_proxy.py
lines 23-25): a single F_SETFL of `flags | O_NONBLOCK`. -/
def set_nonblock (fdFlags : StatusFlags) : StatusFlags :=
  { fdFlags with nonblock := true }

/-- Translation of `pyrepl.get_winsz(fd)` (pyrepl.py lines 55-61): the
`TIOCGWINSZ` ioctl outcome is passed in; on success the unpacked
`(h, w, ph, pw)` quadruple is returned, and any exception is caught and
replaced by the fallback `(24, 80, 0, 0)`. The total return type encodes
that the function never raises. -/
def get_winsz (ioctlRes : Except Errno (Nat × Nat × Nat × Nat)) :
    Nat × Nat × Nat × Nat :=
  match ioctlRes with
  | .ok r => r
  | .error _ => (24, 80, 0, 0)

/-- Translation of `repl_pty_proxy.get_winsize(fd)` (repl_pty_proxy.py
lines 28-35): on success it unpacks `rows, cols, _, _` and returns
`(rows, cols)`; any exception is caught and replaced by `(24, 80)`. -/
def get_winsize (ioctlRes : Except Errno (Nat × Nat × Nat × Nat)) :
    Nat × Nat :=
  match ioctlRes with
  | .ok r => (r.1, r.2.1)
  | .error _ => (24, 80)

/-- Outcome of a size-apply call as seen by its caller: the ioctl
succeeded, the failure was swallowed (or the call skipped), or an
exception propagated out of the function. -/
inductive ApplyResult where
  | ok
  | ignored
  | raised (e : Errno)
deriving DecidableEq

/-- Translation of `pyrepl.set_winsz(fd, sz)` (pyrepl.py lines 64-68):
`if not TIOCSWINSZ: return` and then a bare `fcntl.ioctl(fd, TIOCSWINSZ,
...)` with no `try`/`except`, so an ioctl failure propagates to the
caller. `tiocswinsz` is the module-level constant
`getattr(termios, 'TIOCSWINSZ', 0x5414)`; `ioctlFail` is the outcome of
the ioctl when it is reached. -/
def set_winsz (tiocswinsz : Nat) (ioctlFail : Option Errno)
    (_sz : Nat × Nat × Nat × Nat) : ApplyResult :=
  if tiocswinsz = 0 then .ignored
  else
    match ioctlFail with
    | some e => .raised e
    | none => .ok

/-- Translation of `repl_pty_proxy.set_winsize(fd, rows, cols)`
(repl_pty_proxy.py lines 38-43): the ioctl is wrapped in
`try: ... except Exception: pass`, so every failure is swallowed. -/
def set_winsize (ioctlFail : Option Errno) (_rows _cols : Nat) :
    ApplyResult :=
  match ioctlFail with
  | some _ => .ignored
  | none => .ok

/-- Terminal geometry, the kernel state set by the `TIOCSWINSZ` ioctl. -/
structure WinSize where
  rows : Nat
  cols : Nat
  xpx : Nat
  ypx : Nat
deriving DecidableEq

/-- Effect of `struct.pack("HHHH", h, w, ph, pw)` followed by the
`TIOCSWINSZ` ioctl: each field is truncated to an unsigned 16-bit value
and becomes the terminal geometry. -/
def packHHHH (h w ph pw : Nat) : WinSize :=
  ⟨h % 65536, w % 65536, ph % 65536, pw % 65536⟩

/-- Geometry-state semantics of `pyrepl.set_winsz`: if `TIOCSWINSZ` is
unavailable the call returns early and the geometry is unchanged; if the
ioctl fails the geometry is unchanged (and the error propagates, see
`set_winsz`); otherwise the geometry becomes the packed size. -/
def set_winsz_geom (tiocswinsz : Nat) (ioctlFails : Bool) (geom : WinSize)
    (sz : Nat × Nat × Nat × Nat) : WinSize :=
  if tiocswinsz = 0 then geom
  else if ioctlFails then geom
  else packHHHH sz.1 sz.2.1 sz.2.2.1 sz.2.2.2

/-- Geometry-state semantics of `repl_pty_proxy.set_winsize`: it packs
`(rows, cols, 0, 0)`; a failed ioctl leaves the geometry unchanged. -/
def set_winsize_geom (ioctlFails : Bool) (geom : WinSize)
    (rows cols : Nat) : WinSize :=
  if ioctlFails then geom else packHHHH rows cols 0 0

/-- Action taken by the `"pty"` branch of `pyrepl.main`'s event loop for
one readiness event: `shutdown` is `return` out of `main` (into the
`finally` cleanup), `raiseErr` is an uncaught re-`raise`, and `relay`
is `out.write(data); out.flush()`. -/
inductive PtyAction where
  | shutdown
  | raiseErr (e : Errno)
  | relay (data : List Nat)
deriving DecidableEq

/-- Translation of the `"pty"` branch of `pyrepl.main` (pyrepl.py lines
112-121): `os.read(master_fd, 4096)` raising `EIO` means the child
exited, so `return`; any other `OSError` is re-raised; an empty read
also means `return`; otherwise the data is written to stdout. -/
def mainPtyBranch (res : Except Errno (List Nat)) : PtyAction :=
  match res with
  | .error e => if e = Errno.eio then .shutdown else .raiseErr e
  | .ok data => if data = [] then .shutdown else .relay data

/-- Destination of one `os.write` performed by the socket-variant
broker: the local stdout sink or a connected client descriptor. -/
inductive Dest where
  | stdout
  | client (fd : Nat)
deriving DecidableEq

/-- Observable effect of one invocation of `repl_pty_proxy.read_pty`:
the ordered list of writes it performs, whether it unregistered the
master descriptor (child-exit path), and which error, if any, it let
propagate. -/
structure ReadPtyEffect where
  writes : List (Dest × List Nat)
  unregisteredMaster : Bool
  raised : Option Errno
deriving DecidableEq

/-- Translation of `repl_pty_proxy.read_pty(fd, mask)` (repl_pty_proxy.py
lines 105-120). An `EIO` from `os.read` is converted to empty data
("slave side closed"); any other `OSError` is re-raised. Empty data
unregisters the master and returns; otherwise the function performs
exactly one write, `os.write(sys.stdout.fileno(), data)` — the source
never writes PTY output to any client in `clients`, which is why the
currently-connected client list `_clients` does not occur in the body. -/
def read_pty (_clients : List Nat) (readRes : Except Errno (List Nat)) :
    ReadPtyEffect :=
  let dataE : Except Errno (List Nat) :=
    match readRes with
    | .error e => if e = Errno.eio then .ok [] else .error e
    | .ok data => .ok data
  match dataE with
  | .error e => { writes := [], unregisteredMaster := false, raised := some e }
  | .ok data =>
    if data = [] then
      { writes := [], unregisteredMaster := true, raised := none }
    else
      { writes := [(Dest.stdout, data)], unregisteredMaster := false,
        raised := none }

/-- Outcome of one `os.open(path, O_RDONLY | O_NONBLOCK)` attempt. -/
inductive OpenOutcome where
  | ok (fd : Nat)
  | err (e : Errno)
deriving DecidableEq

/-- The `os.O_RDONLY` flag value. -/
def O_RDONLY : Nat := 0

/-- The `os.O_NONBLOCK` flag value on Linux (octal 04000). -/
def O_NONBLOCK : Nat := 2048

/-- Loop body of `pyrepl.reopen_fifo_reader` (pyrepl.py lines 35-45) over
an explicit finite list of successive `os.open` outcomes. A success
returns the descriptor; an open failing with `ENXIO` or `ENOENT` sleeps
`time.sleep(0.05)` (a fixed 50 ms backoff — counted in the second
component of the result) and retries with the next outcome; any other
error is re-raised. `none` means the supplied outcome list was exhausted
with the loop still running. -/
def reopenGo : List OpenOutcome → Option (Except Errno Nat × Nat)
  | [] => none
  | OpenOutcome.ok fd :: _ => some (Except.ok fd, 0)
  | OpenOutcome.err e :: rest =>
    if e = Errno.enxio ∨ e = Errno.enoent then
      match reopenGo rest with
      | none => none
      | some (r, sleeps) => some (r, sleeps + 1)
    else some (Except.error e, 0)

/-- Translation of `pyrepl.reopen_fifo_reader(path)`: every attempt calls
`os.open(path, os.O_RDONLY | os.O_NONBLOCK)`, so the environment
function `openAt`, giving the successive outcomes of opening the path
with a given flag word, is consulted at exactly `O_RDONLY ||| O_NONBLOCK`. -/
def reopen_fifo_reader (openAt : Nat → List OpenOutcome) :
    Option (Except Errno Nat × Nat) :=
  reopenGo (openAt (O_RDONLY ||| O_NONBLOCK))

/-- Channel tag stored as the `data=` field of a selector registration
in `pyrepl.main` (`"pty"`, `"fifo"`, `"stdin"`), extended with the
socket-variant roles. -/
inductive Tag where
  | pty
  | fifo
  | stdin
  | listener
  | client
deriving DecidableEq

/-- One selector registration: a descriptor and its channel tag. -/
structure SelEntry where
  fd : Nat
  tag : Tag
deriving DecidableEq

/-- Primitive operations performed by the `"fifo"` branch of
`pyrepl.main`, in program order. -/
inductive FifoOp where
  | unregister (fd : Nat)
  | close (fd : Nat)
  | openFifo (fd : Nat)
  | register (fd : Nat)
  | writeMaster (data : List Nat)
deriving DecidableEq

/-- Whether a branch of the event-loop body falls through to the next
iteration (`continue`) or returns out of `main`. -/
inductive LoopCtl where
  | cont
  | exitMain
deriving DecidableEq

/-- Outcome of the non-blocking `os.read(fifo_r, 4096)`:
`BlockingIOError`, or a (possibly empty) byte string. -/
inductive ReadOutcome where
  | wouldBlock
  | bytes (data : List Nat)
deriving DecidableEq

/-- The event-loop state touched by the `"fifo"` branch: the selector's
registration list and the current FIFO reader descriptor (the `fifo_r`
local of `pyrepl.main`). -/
structure FifoLoopState where
  sel : List SelEntry
  fifoR : Nat
deriving DecidableEq

/-- Result of one execution of the `"fifo"` branch. -/
structure FifoStepResult where
  state : FifoLoopState
  ops : List FifoOp
  ctl : LoopCtl
deriving DecidableEq

/-- Translation of the `"fifo"` branch of `pyrepl.main` (pyrepl.py lines
123-136). `BlockingIOError` is `continue`. A zero-length read means the
writer closed: the branch runs `sel.unregister(fifo_r)`,
`os.close(fifo_r)`, `fifo_r = reopen_fifo_reader(FIFO_PATH)` (the fresh
descriptor is the parameter `newFd`), `sel.register(fifo_r, ...,
data="fifo")`, then `continue`. A non-empty chunk is written to the PTY
master. `sel.unregister` removes the registration keyed by the
descriptor. This branch never returns out of `main`: its control result
is always `LoopCtl.cont`. -/
def mainFifoBranch (st : FifoLoopState) (res : ReadOutcome) (newFd : Nat) :
    FifoStepResult :=
  match res with
  | .wouldBlock => { state := st, ops := [], ctl := .cont }
  | .bytes chunk =>
    if chunk = [] then
      { state :=
          { sel := st.sel.filter (fun en => en.fd != st.fifoR) ++
              [⟨newFd, Tag.fifo⟩],
            fifoR := newFd },
        ops := [FifoOp.unregister st.fifoR, FifoOp.close st.fifoR,
          FifoOp.openFifo newFd, FifoOp.register newFd],
        ctl := .cont }
    else
      { state := st, ops := [FifoOp.writeMaster chunk], ctl := .cont }

/-- Truth value of the guard at repl_pty_proxy.py line 189:
`sys.stdin.isatty() or not os.isatty(sys.stdin.fileno())`. Both calls
query the same descriptor (standard input), so both are the single
boolean `isattyStdin`. -/
def stdinGuard (isattyStdin : Bool) : Bool :=
  isattyStdin || !isattyStdin

/-- Translation of the guarded stdin setup in `repl_pty_proxy.main`
(repl_pty_proxy.py lines 189-191): when the guard holds, stdin is set
non-blocking via `set_nonblock` and registered with the `read_stdin`
handler; otherwise neither happens. Returns the selector list and
stdin's status flags afterwards. -/
def stdinSetupStep (isattyStdin : Bool) (sel : List SelEntry)
    (stdinFd : Nat) (stdinFlags : StatusFlags) :
    List SelEntry × StatusFlags :=
  if stdinGuard isattyStdin then
    (sel ++ [⟨stdinFd, Tag.stdin⟩], set_nonblock stdinFlags)
  else
    (sel, stdinFlags)

/-- Default FIFO path of pyrepl.py (`PYREPL_FIFO` unset). -/
def FIFO_PATH : String := "/tmp/pyrepl.in"

/-- Default socket path of repl_pty_proxy.py (`REPL_UDS` unset). -/
def UDS_PATH : String := "/tmp/repl.sock"

/-- Effect of `os.unlink(path)` on a filesystem modelled as the list of
existing entry paths; a missing path is a no-op here, matching the
`except FileNotFoundError: pass` at the only call site. -/
def unlinkPath (path : String) (fs : List String) : List String :=
  fs.filter (fun p => p != path)

/-- Translation of `repl_pty_proxy.cleanup()` (repl_pty_proxy.py lines
52-56): unlink the socket path, ignoring `FileNotFoundError`. -/
def cleanup (fs : List String) : List String :=
  unlinkPath UDS_PATH fs

/-- Translation of `repl_pty_proxy.restore_tty_if_tty()`
(repl_pty_proxy.py lines 128-130): the body is `pass` (the comment says
"rely on bash to restore in most cases"), so the terminal mode is
returned unchanged. -/
def restore_tty_if_tty (mode : Nat) : Nat :=
  mode

/-- State observable at broker teardown: the filesystem entries and the
local terminal's mode word. -/
structure TermState where
  fs : List String
  ttyMode : Nat
deriving DecidableEq

/-- Teardown effects of the `finally` block of `pyrepl.main` (pyrepl.py
lines 146-156): `termios.tcsetattr(stdin_fd, TCSADRAIN, old_tio)`
restores the saved terminal mode, `set_nonblocking(stdin_fd, False)` and
the descriptor unregister/close calls touch no filesystem entry, and no
`os.unlink` appears anywhere in pyrepl.py, so the filesystem is
unchanged. -/
def pyreplFinally (oldTio : Nat) (st : TermState) : TermState :=
  { fs := st.fs, ttyMode := oldTio }

/-- Teardown effects of the `finally` block of `repl_pty_proxy.main`
(repl_pty_proxy.py lines 207-225): `restore_tty_if_tty()` (a no-op),
client/master/listener unregister-and-close calls (no filesystem
effect), then `cleanup()` unlinking the socket path. -/
def proxyFinally (st : TermState) : TermState :=
  { fs := cleanup st.fs, ttyMode := restore_tty_if_tty st.ttyMode }

/-- C3: calling `set_nonblocking` with `enable=True` does NOT leave
`O_NONBLOCK` set — both F_SETFL calls sit inside the `if enable:`
branch, and the second one writes `flags & ~O_NONBLOCK`, so the
descriptor ends with the flag cleared for every initial flag word;
with `enable=False` the function does nothing at all. The claim that
the helper leaves `O_NONBLOCK` set is refuted at every input. -/
theorem set_nonblocking_enable_clears_the_flag :
    (set_nonblocking ⟨false, 32768⟩ true).nonblock = false ∧
    (∀ st : StatusFlags, (set_nonblocking st true).nonblock = false) ∧
    (∀ st : StatusFlags, set_nonblocking st false = st) :=
  ⟨rfl, fun _ => rfl, fun _ => rfl⟩

/-- C4 counterexample: with the Linux `TIOCSWINSZ` value 0x5414 = 21524
and an ioctl failing with `EBADF`, `pyrepl.set_winsz` raises the error
to its caller — refuting, at this concrete input, the claim that
applying a size to the PTY master never raises. -/
theorem set_winsz_raises_cex :
    set_winsz 21524 (some Errno.ebadf) (24, 80, 0, 0) =
      ApplyResult.raised Errno.ebadf := by
  decide

/-- C4 amended: the socket-variant `set_winsize` never raises (every
ioctl failure is swallowed as `ignored`), but the FIFO-variant
`set_winsz` propagates any ioctl failure to its caller whenever the
`TIOCSWINSZ` constant is nonzero (it always is: the source falls back
to 0x5414), and succeeds when the ioctl succeeds. -/
theorem winsize_apply_error_behavior (f : Option Errno) (rows cols : Nat)
    (t : Nat) (e : Errno) (sz : Nat × Nat × Nat × Nat) (ht : t ≠ 0) :
    (∀ e2 : Errno, set_winsize f rows cols ≠ ApplyResult.raised e2) ∧
    set_winsz t (some e) sz = ApplyResult.raised e ∧
    set_winsz t none sz = ApplyResult.ok := by
  refine ⟨?_, ?_, ?_⟩
  · intro e2
    cases f <;> simp [set_winsize]
  · simp [set_winsz, ht]
  · simp [set_winsz, ht]

/-- C4 witness: instantiates `winsize_apply_error_behavior` at the Linux
`TIOCSWINSZ` value and an `EBADF` ioctl failure. -/
theorem winsize_apply_error_behavior_witness :
    (21524 : Nat) ≠ 0 ∧
    set_winsz 21524 (some Errno.ebadf) (24, 80, 0, 0) =
      ApplyResult.raised Errno.ebadf :=
  ⟨by decide,
    (winsize_apply_error_behavior none 24 80 21524 Errno.ebadf (24, 80, 0, 0)
      (by decide)).2.1⟩

/-- C5: an `EIO` read failure on the PTY master is treated as child
exit by both brokers — `pyrepl.main` returns into its cleanup
(`shutdown`) without raising and `repl_pty_proxy.read_pty` unregisters
the master and lets nothing propagate — while every other read error is
re-raised and terminates the broker. -/
theorem master_read_error_dispatch (e : Errno) (h : e ≠ Errno.eio) :
    mainPtyBranch (Except.error Errno.eio) = PtyAction.shutdown ∧
    (read_pty [] (Except.error Errno.eio)).unregisteredMaster = true ∧
    (read_pty [] (Except.error Errno.eio)).raised = none ∧
    mainPtyBranch (Except.error e) = PtyAction.raiseErr e ∧
    (read_pty [] (Except.error e)).raised = some e := by
  refine ⟨rfl, rfl, rfl, ?_, ?_⟩
  · simp [mainPtyBranch, h]
  · simp [read_pty, h]

/-- C5 witness: instantiates `master_read_error_dispatch` at the
non-EIO error `EBADF`. -/
theorem master_read_error_dispatch_witness :
    Errno.ebadf ≠ Errno.eio ∧
    mainPtyBranch (Except.error Errno.ebadf) =
      PtyAction.raiseErr Errno.ebadf :=
  ⟨by decide, (master_read_error_dispatch Errno.ebadf (by decide)).2.2.2.1⟩

/-- C8: reading the terminal size never raises — the translated readers
are total functions — and on any failed geometry query `pyrepl.get_winsz`
returns the fallback 24 rows by 80 columns with zero pixel fields, while
`repl_pty_proxy.get_winsize` returns the fallback `(24, 80)`. -/
theorem winsize_read_fallback (e : Errno) :
    get_winsz (Except.error e) = (24, 80, 0, 0) ∧
    get_winsize (Except.error e) = (24, 80) :=
  ⟨rfl, rfl⟩

/-- C9: applying the same WindowSize to the PTY master twice in a row
yields the same terminal geometry as applying it once, for both
variants and whether or not the ioctl fails — the apply operation is
idempotent with no cumulative drift. -/
theorem winsize_apply_idempotent (t : Nat) (f : Bool) (g : WinSize)
    (sz : Nat × Nat × Nat × Nat) (rows cols : Nat) :
    set_winsz_geom t f (set_winsz_geom t f g sz) sz =
      set_winsz_geom t f g sz ∧
    set_winsize_geom f (set_winsize_geom f g rows cols) rows cols =
      set_winsize_geom f g rows cols := by
  constructor
  · by_cases ht : t = 0
    · simp [set_winsz_geom, ht]
    · cases f <;> simp [set_winsz_geom, ht]
  · cases f <;> simp [set_winsize_geom]

/-- C10: the guard `sys.stdin.isatty() or not os.isatty(sys.stdin.fileno())`
of the socket-variant broker is a tautology, so on every execution local
stdin is set non-blocking (its `O_NONBLOCK` bit ends true) and is
registered in the event loop; the broker never runs as a pure output
observer without a local input channel. -/
theorem stdin_guard_tautology (b : Bool) (sel : List SelEntry) (fd : Nat)
    (fl : StatusFlags) :
    stdinGuard b = true ∧
    stdinSetupStep b sel fd fl =
      (sel ++ [⟨fd, Tag.stdin⟩], set_nonblock fl) ∧
    (set_nonblock fl).nonblock = true := by
  have hb : stdinGuard b = true := by cases b <;> rfl
  refine ⟨hb, ?_, rfl⟩
  simp [stdinSetupStep, hb]

/-- C1 counterexample: with one connected client (descriptor 7) and the
chunk `"hi"` ([104, 105]) read from the PTY master, `read_pty` performs
no write to that client connection — refuting, at this concrete input,
the claim that every chunk is written to every currently-registered
client. -/
theorem read_pty_no_client_write_cex :
    (Dest.client 7, [104, 105]) ∉
      (read_pty [7] (Except.ok [104, 105])).writes := by
  decide

/-- C1 amended: in the socket-variant broker, every non-empty byte
chunk read from the PTY master is written only to the local output sink
(stdout), byte-identical and in the same loop iteration; no
currently-registered client connection receives any of it (socket
clients are input-only in this code). -/
theorem read_pty_writes_stdout_only (clients : List Nat) (data : List Nat)
    (h : data ≠ []) :
    (read_pty clients (Except.ok data)).writes = [(Dest.stdout, data)] ∧
    ∀ c : Nat,
      (Dest.client c, data) ∉ (read_pty clients (Except.ok data)).writes := by
  constructor
  · simp [read_pty, h]
  · intro c
    simp [read_pty, h]

/-- C1 witness: instantiates `read_pty_writes_stdout_only` at one
client and the one-byte chunk [104]. -/
theorem read_pty_writes_stdout_only_witness :
    ([104] : List Nat) ≠ [] ∧
    (read_pty [7] (Except.ok [104])).writes = [(Dest.stdout, [104])] :=
  ⟨by decide, (read_pty_writes_stdout_only [7] [104] (by decide)).1⟩

/-- C2 counterexample: at the concrete teardown state where the FIFO
path exists and the terminal was switched to raw mode (mode 1, saved
pre-session mode 0), the FIFO-variant cleanup leaves the FIFO path on
the filesystem, and the socket-variant cleanup leaves the terminal mode
at 1 — refuting the claim that every exit path removes the created
paths and restores the terminal mode. -/
theorem teardown_cex :
    FIFO_PATH ∈ (pyreplFinally 0 ⟨[FIFO_PATH], 1⟩).fs ∧
    (proxyFinally ⟨[], 1⟩).ttyMode = 1 := by
  constructor
  · simp [pyreplFinally]
  · rfl

/-- C2 amended: on exit paths that reach the teardown handlers, the
FIFO-variant broker restores the local terminal mode to its pre-session
value but never removes the FIFO path (the filesystem is unchanged),
while the socket-variant broker removes the socket path but leaves the
terminal mode untouched (its restore routine is a no-op). -/
theorem teardown_behavior (oldTio : Nat) (st st2 : TermState) :
    (pyreplFinally oldTio st).ttyMode = oldTio ∧
    (pyreplFinally oldTio st).fs = st.fs ∧
    UDS_PATH ∉ (proxyFinally st2).fs ∧
    (proxyFinally st2).ttyMode = st2.ttyMode := by
  refine ⟨rfl, rfl, ?_, rfl⟩
  simp [proxyFinally, cleanup, unlinkPath, List.mem_filter]

/-- Helper for C6: a run of retryable open failures followed by a
success returns the successful descriptor, with one backoff sleep per
failed attempt. -/
theorem reopenGo_retryable_ok (errs : List Errno) (fd : Nat)
    (rest : List OpenOutcome)
    (hr : ∀ x ∈ errs, x = Errno.enxio ∨ x = Errno.enoent) :
    reopenGo (errs.map OpenOutcome.err ++ OpenOutcome.ok fd :: rest) =
      some (Except.ok fd, errs.length) := by
  induction errs with
  | nil => rfl
  | cons e es ih =>
    have he : e = Errno.enxio ∨ e = Errno.enoent := hr e (by simp)
    have ih2 := ih (fun x hx => hr x (by simp [hx]))
    simp [reopenGo, he, ih2]

/-- Helper for C6: a run of retryable open failures followed by a
non-retryable failure re-raises that failure, with one backoff sleep
per retried attempt. -/
theorem reopenGo_first_fatal (errs : List Errno) (e : Errno)
    (rest : List OpenOutcome)
    (hr : ∀ x ∈ errs, x = Errno.enxio ∨ x = Errno.enoent)
    (hne : ¬(e = Errno.enxio ∨ e = Errno.enoent)) :
    reopenGo (errs.map OpenOutcome.err ++ OpenOutcome.err e :: rest) =
      some (Except.error e, errs.length) := by
  induction errs with
  | nil => simp [reopenGo, hne]
  | cons x xs ih =>
    have hx : x = Errno.enxio ∨ x = Errno.enoent := hr x (by simp)
    have ih2 := ih (fun y hy => hr y (by simp [hy]))
    simp [reopenGo, hx, ih2]

/-- C6: `reopen_fifo_reader` opens the path with
`O_RDONLY | O_NONBLOCK` and retries, with one fixed backoff sleep per
attempt, exactly while the open fails with `ENXIO` or `ENOENT`: a
success after such failures returns the opened descriptor, and a first
failure of any other kind is re-raised to the caller without further
retries. -/
theorem reopen_fifo_reader_retry_policy (openAt : Nat → List OpenOutcome)
    (errs : List Errno) (fd : Nat) (e : Errno) (rest : List OpenOutcome)
    (hr : ∀ x ∈ errs, x = Errno.enxio ∨ x = Errno.enoent) :
    (openAt (O_RDONLY ||| O_NONBLOCK) =
        errs.map OpenOutcome.err ++ OpenOutcome.ok fd :: rest →
      reopen_fifo_reader openAt = some (Except.ok fd, errs.length)) ∧
    (¬(e = Errno.enxio ∨ e = Errno.enoent) →
      openAt (O_RDONLY ||| O_NONBLOCK) =
        errs.map OpenOutcome.err ++ OpenOutcome.err e :: rest →
      reopen_fifo_reader openAt = some (Except.error e, errs.length)) := by
  constructor
  · intro ho
    unfold reopen_fifo_reader
    rw [ho]
    exact reopenGo_retryable_ok errs fd rest hr
  · intro hne ho
    unfold reopen_fifo_reader
    rw [ho]
    exact reopenGo_first_fatal errs e rest hr hne

/-- C6 witness: instantiates `reopen_fifo_reader_retry_policy` on an
open sequence of an `ENXIO` failure, an `ENOENT` failure, then success
with descriptor 9: the routine retries twice (two sleeps) and returns
descriptor 9. -/
theorem reopen_fifo_reader_retry_policy_witness :
    (∀ x ∈ [Errno.enxio, Errno.enoent],
      x = Errno.enxio ∨ x = Errno.enoent) ∧
    reopen_fifo_reader
      (fun _ => [OpenOutcome.err Errno.enxio, OpenOutcome.err Errno.enoent,
        OpenOutcome.ok 9]) = some (Except.ok 9, 2) :=
  ⟨by decide,
    (reopen_fifo_reader_retry_policy
      (fun _ => [OpenOutcome.err Errno.enxio, OpenOutcome.err Errno.enoent,
        OpenOutcome.ok 9])
      [Errno.enxio, Errno.enoent] 9 Errno.ebadf [] (by decide)).1 rfl⟩

/-- C7: if every fifo-tagged selector entry is the current reader
descriptor (in particular if it is the unique fifo registration), then
after a zero-length read the `"fifo"` branch leaves exactly one
fifo-tagged entry registered, and that entry is the freshly opened
descriptor; the performed operations are, in order, unregister old,
close old, open new, register new; the branch continues the loop rather
than terminating, and the channel slot now holds the new descriptor. -/
theorem fifo_reopen_single_reader (st : FifoLoopState) (newFd : Nat)
    (h : ∀ en ∈ st.sel, en.tag = Tag.fifo → en.fd = st.fifoR) :
    ((mainFifoBranch st (ReadOutcome.bytes []) newFd).state.sel.countP
        (fun en => en.tag == Tag.fifo) = 1) ∧
    (∀ en ∈ (mainFifoBranch st (ReadOutcome.bytes []) newFd).state.sel,
      en.tag = Tag.fifo → en.fd = newFd) ∧
    (mainFifoBranch st (ReadOutcome.bytes []) newFd).ops =
      [FifoOp.unregister st.fifoR, FifoOp.close st.fifoR,
        FifoOp.openFifo newFd, FifoOp.register newFd] ∧
    (mainFifoBranch st (ReadOutcome.bytes []) newFd).ctl = LoopCtl.cont ∧
    (mainFifoBranch st (ReadOutcome.bytes []) newFd).state.fifoR = newFd := by
  have hz : (st.sel.filter (fun en => en.fd != st.fifoR)).countP
      (fun en => en.tag == Tag.fifo) = 0 := by
    rw [List.countP_eq_zero]
    intro a ha
    rcases List.mem_filter.mp ha with ⟨hmem, hne⟩
    simp only [beq_iff_eq]
    intro htag
    have := h a hmem htag
    simp [this] at hne
  refine ⟨?_, ?_, rfl, rfl, rfl⟩
  · simp [mainFifoBranch, List.countP_append, hz]
  · intro en hen htag
    have hstate : (mainFifoBranch st (ReadOutcome.bytes []) newFd).state.sel =
        st.sel.filter (fun en => en.fd != st.fifoR) ++ [⟨newFd, Tag.fifo⟩] :=
      rfl
    rw [hstate] at hen
    rcases List.mem_append.mp hen with hf | hs
    · rcases List.mem_filter.mp hf with ⟨hmem, hne⟩
      have := h en hmem htag
      simp [this] at hne
    · rw [List.mem_singleton] at hs
      rw [hs]

/-- C7 witness: instantiates `fifo_reopen_single_reader` at a selector
holding the pty, fifo and stdin registrations with reader descriptor 4
and fresh descriptor 7. -/
theorem fifo_reopen_single_reader_witness :
    (∀ en ∈ ([⟨3, Tag.pty⟩, ⟨4, Tag.fifo⟩, ⟨0, Tag.stdin⟩] :
        List SelEntry), en.tag = Tag.fifo → en.fd = 4) ∧
    ((mainFifoBranch ⟨[⟨3, Tag.pty⟩, ⟨4, Tag.fifo⟩, ⟨0, Tag.stdin⟩], 4⟩
        (ReadOutcome.bytes []) 7).state.sel.countP
        (fun en => en.tag == Tag.fifo) = 1) :=
  ⟨by decide,
    (fifo_reopen_single_reader
      ⟨[⟨3, Tag.pty⟩, ⟨4, Tag.fifo⟩, ⟨0, Tag.stdin⟩], 4⟩ 7 (by decide)).1⟩

end Icsql
